import Mathlib

/-!
Verification of the orchestration core of `simple-peer` (files `lite.js` and
`src/index.ts`): a shallow embedding of the peer's negotiation coordinator,
connectivity monitor, duplex stream adapter and media sender registry, with
theorems settling the frozen claims about them.

Conventions of the embedding:
- JS booleans and flags become `Bool` fields of `PeerState`.
- Event-handler methods become pure functions `PeerState → ... → PeerState × List Effect`,
  where `Effect` records externally visible actions (events emitted, engine
  calls, stream pushes, completion callbacks) in the order they happen.
- Asynchronous completions (timers, microtasks, promise callbacks, engine
  events) are delivered by an explicit event type `Ev`; `steps` folds a list
  of events over a state, giving the reachable states of the peer.
- Throwing methods return an `Outcome` (`ret`, `retBool`, or `threw code`);
  a thrown error aborts the method with the state unchanged, as in JS.
-/

namespace SpecPeer

/-- RTCIceConnectionState values (lite.js uses new/checking/connected/completed/
disconnected/failed/closed). -/
inductive IceConnState
  | new | checking | connected | completed | disconnected | failed | closed
  deriving DecidableEq, Repr

/-- RTCIceGatheringState values. -/
inductive IceGathState
  | new | gathering | complete
  deriving DecidableEq, Repr

/-- RTCPeerConnectionState values, as read by `_onConnectionStateChange`. -/
inductive ConnState
  | new | connecting | connected | disconnected | failed | closed
  deriving DecidableEq, Repr

/-- RTCDataChannel readyState; `absent` models `_channel === null` (responder
before `ondatachannel`). -/
inductive ChannelState
  | absent | connecting | opened | closing | closed
  deriving DecidableEq, Repr

/-- The `iceRestartEnabled` option after constructor normalisation:
`false`, `"onFailure"` or `"onDisconnect"` (lite.js lines 84-85). -/
inductive IcePolicy
  | disabled | onFailure | onDisconnect
  deriving DecidableEq, Repr

/-- A datachannel message payload / pushed value. `arrayBuffer` is a binary
frame (the channel's binaryType is `arraybuffer`), `strData` a text frame,
`uint8` the byte view produced by `new Uint8Array(...)` or `text2arr(...)`. -/
inductive MsgData
  | arrayBuffer (bytes : List Nat)
  | strData (t : String)
  | uint8 (bytes : List Nat)
  deriving DecidableEq, Repr

/-- An RTCRtpSender handle held in `_senderMap`, with the `removed` flag the
code writes onto the sender object in `removeTrack`. -/
structure Sender where
  id : Nat
  removed : Bool
  deriving DecidableEq, Repr

/-- Shape of a `signal()` payload: which of the four recognised fields are
present (`renegotiate`, `transceiverRequest`, `candidate`, `sdp`). -/
structure SignalData where
  renegotiate : Bool
  transceiverRequest : Option Nat
  candidate : Option Nat
  sdpIsOffer : Option Bool
  deriving DecidableEq, Repr

/-- Externally visible actions of a method or handler, in order. -/
inductive Effect
  | emitSignalRenegotiate
  | emitSignalTransceiverRequest (kind : Nat)
  | scheduleCreateOffer
  | scheduleCreateAnswer
  | engineRestartIce
  | engineAddTransceiver (kind : Nat)
  | engineAddIceCandidate (c : Nat)
  | engineSetRemoteDescription
  | engineAddTrack (track stream : Nat)
  | engineRemoveTrack (senderId : Nat)
  | engineReplaceTrack (senderId newTrack : Nat)
  | cbOk
  | cbErr (code : String)
  | emitConnect
  | emitReconnect
  | emitNegotiated
  | emitIceStateChangeEvent
  | emitIceGatheringCompleteEvent
  | emitIceTimeout
  | emitSignalingStateChangeEvent
  | pushData (d : MsgData)
  | fatalDestroy (code msg : String)
  | destroyNoError
  deriving DecidableEq, Repr

/-- How a public method returned: normally, with a boolean, or by throwing
an error with the given code. -/
inductive Outcome
  | ret
  | retBool (b : Bool)
  | threw (code : String)
  deriving DecidableEq, Repr

/-- The mutable state of one peer: the flags and slots of the `Peer` class in
lite.js plus the sender registry of src/index.ts. `sent` is the ghost trace of
chunks handed to `channel.send`. -/
structure PeerState where
  initiator : Bool
  iceRestartEnabled : IcePolicy
  pcHasRestartIce : Bool
  objectMode : Bool
  senderHasReplaceTrack : Bool
  destroyed : Bool
  destroying : Bool
  connected : Bool
  connecting : Bool
  connectedOnce : Bool
  pcReady : Bool
  channelReady : Bool
  iceGatheringComplete : Bool
  iceGatheringCompleteTimerOn : Bool
  iceFailureRecoveryTimerOn : Bool
  isNegotiating : Bool
  isRestartingIce : Bool
  firstNegotiation : Bool
  batchedNegotiation : Bool
  queuedNegotiation : Bool
  statsPending : Bool
  hasRemoteDescription : Bool
  chunk : Option Nat
  cbPending : Bool
  bufferedAmountHigh : Bool
  channelState : ChannelState
  sent : List Nat
  pendingCandidates : List Nat
  senderMap : List (Nat × List (Nat × Sender))
  nextSenderId : Nat
  sendersAwaitingStable : List Nat
  deriving DecidableEq, Repr

/-- The state right after the constructor ran: all flags cleared except
`_firstNegotiation = true` and `_batchedNegotiation = true` (the constructor
ends with `this._needsNegotiation()`). -/
def initState (initiator : Bool) (policy : IcePolicy) (objectMode pcHasRestartIce : Bool) :
    PeerState where
  initiator := initiator
  iceRestartEnabled := policy
  pcHasRestartIce := pcHasRestartIce
  objectMode := objectMode
  senderHasReplaceTrack := true
  destroyed := false
  destroying := false
  connected := false
  connecting := false
  connectedOnce := false
  pcReady := false
  channelReady := false
  iceGatheringComplete := false
  iceGatheringCompleteTimerOn := false
  iceFailureRecoveryTimerOn := false
  isNegotiating := false
  isRestartingIce := false
  firstNegotiation := true
  batchedNegotiation := true
  queuedNegotiation := false
  statsPending := false
  hasRemoteDescription := false
  chunk := none
  cbPending := false
  bufferedAmountHigh := false
  channelState := if initiator then .connecting else .absent
  sent := []
  pendingCandidates := []
  senderMap := []
  nextSenderId := 0
  sendersAwaitingStable := []

/-! ## Negotiation coordinator (lite.js `_needsNegotiation`, `negotiate`) -/

/-- `_needsNegotiation` (lite.js 274-288): if a batch is already open the call
returns immediately; otherwise it opens the batch and queues one microtask.
The returned Bool says whether a microtask was scheduled by this call. -/
def needsNegotiation (s : PeerState) : PeerState × Bool :=
  if s.batchedNegotiation = true then (s, false)
  else ({s with batchedNegotiation := true}, true)

/-- `negotiate` (lite.js 290-317). Initiator: schedule `_createOffer` on a
timer unless already negotiating (then queue); responder: emit a renegotiate
signal unless already negotiating (then queue); finally set
`_isNegotiating = true`. -/
def negotiate (s : PeerState) : PeerState × Outcome × List Effect :=
  if s.destroying = true then (s, .ret, [])
  else if s.destroyed = true then (s, .threw "ERR_DESTROYED", [])
  else if s.initiator = true then
    if s.isNegotiating = true then
      ({s with queuedNegotiation := true, isNegotiating := true}, .ret, [])
    else
      ({s with isNegotiating := true}, .ret, [Effect.scheduleCreateOffer])
  else
    if s.isNegotiating = true then
      ({s with queuedNegotiation := true, isNegotiating := true}, .ret, [])
    else
      ({s with isNegotiating := true}, .ret, [Effect.emitSignalRenegotiate])

/-- The microtask body queued by `_needsNegotiation` (lite.js 278-287):
clear the batch flag, then call `negotiate()` unless this is the very first
negotiation of a non-initiator, then clear the first-negotiation flag. The
middle component says whether `negotiate()` was invoked. -/
def runNegotiationMicrotask (s : PeerState) : PeerState × Bool × List Effect :=
  let s := {s with batchedNegotiation := false}
  if s.initiator = true ∨ s.firstNegotiation = false then
    let r := negotiate s
    ({r.1 with firstNegotiation := false}, true, r.2.2)
  else
    ({s with firstNegotiation := false}, false, [])

/-- `n` synchronous calls to `_needsNegotiation` within one tick; the second
component counts how many of them scheduled a microtask. -/
def needsNegotiationN : Nat → PeerState → PeerState × Nat
  | 0, s => (s, 0)
  | n + 1, s =>
    let r := needsNegotiation s
    let r2 := needsNegotiationN n r.1
    (r2.1, (if r.2 then 1 else 0) + r2.2)

theorem needsNegotiationN_batched (n : Nat) (s : PeerState)
    (h : s.batchedNegotiation = true) : needsNegotiationN n s = (s, 0) := by
  induction n with
  | zero => rfl
  | succ n ih => simp [needsNegotiationN, needsNegotiation, h, ih]

/-- Claim C1: within one tick, a batch of `n ≥ 1` synchronous
`_needsNegotiation` calls schedules exactly one microtask; the first call sets
the batching flag (and every further call returns with the state unchanged),
and the scheduled microtask invokes `negotiate()` exactly once, unless the
peer is a non-initiator making its very first negotiation request. -/
theorem batchedNegotiation_one_round (s : PeerState) (n : Nat)
    (hb : s.batchedNegotiation = false) (hn : 0 < n) :
    needsNegotiationN n s = ({s with batchedNegotiation := true}, 1) ∧
    needsNegotiation {s with batchedNegotiation := true} =
      ({s with batchedNegotiation := true}, false) ∧
    (runNegotiationMicrotask {s with batchedNegotiation := true}).2.1 =
      (s.initiator || !s.firstNegotiation) := by
  obtain ⟨m, rfl⟩ : ∃ m, n = m + 1 := ⟨n - 1, (Nat.succ_pred_eq_of_pos hn).symm⟩
  refine ⟨?_, ?_, ?_⟩
  · simp [needsNegotiationN, needsNegotiation, hb,
      needsNegotiationN_batched m {s with batchedNegotiation := true} rfl]
  · simp [needsNegotiation]
  · by_cases hi : s.initiator = true <;>
      by_cases hf : s.firstNegotiation = true <;>
      simp [runNegotiationMicrotask, hi, hf]

/-- Witness for `batchedNegotiation_one_round` at a concrete state. -/
theorem batchedNegotiation_one_round_witness :
    needsNegotiationN 3 {initState true .disabled false false with batchedNegotiation := false} =
      ({initState true .disabled false false with batchedNegotiation := true}, 1) :=
  (batchedNegotiation_one_round
    {initState true .disabled false false with batchedNegotiation := false} 3
    (by decide) (by decide)).1

/-- Claim C2: for a responder whose first-negotiation flag is still set, the
batched microtask discards the request: `negotiate()` is not invoked and no
effect (in particular no signal) is emitted; the flag is cleared, so the very
next negotiation request is not discarded. -/
theorem responder_first_negotiation_discarded (s : PeerState)
    (hi : s.initiator = false) (hf : s.firstNegotiation = true) :
    (runNegotiationMicrotask s).2.1 = false ∧
    (runNegotiationMicrotask s).2.2 = [] ∧
    (runNegotiationMicrotask s).1.firstNegotiation = false ∧
    (runNegotiationMicrotask (needsNegotiation (runNegotiationMicrotask s).1).1).2.1 = true := by
  refine ⟨?_, ?_, ?_, ?_⟩ <;>
    simp [runNegotiationMicrotask, needsNegotiation, negotiate, hi, hf]

/-- Witness for `responder_first_negotiation_discarded` at the responder's
initial state. -/
theorem responder_first_negotiation_discarded_witness :
    (runNegotiationMicrotask (initState false .disabled false false)).2.1 = false ∧
    (runNegotiationMicrotask (initState false .disabled false false)).2.2 = [] :=
  ⟨(responder_first_negotiation_discarded (initState false .disabled false false)
      (by decide) (by decide)).1,
   (responder_first_negotiation_discarded (initState false .disabled false false)
      (by decide) (by decide)).2.1⟩

/-! ## ICE restart and failure recovery (lite.js `restartIce`,
`_startIceFailureRecoveryTimeout`) -/

/-- `_startIceFailureRecoveryTimeout` (lite.js 359-376): unless destroyed,
destroying, or the recovery timer is already armed, reset the
gathering-complete flag, cancel the gathering timer, and arm the recovery
timer. -/
def startIceFailureRecoveryTimeout (s : PeerState) : PeerState :=
  if s.destroyed = true ∨ s.destroying = true then s
  else if s.iceFailureRecoveryTimerOn = true then s
  else {s with iceGatheringComplete := false,
               iceGatheringCompleteTimerOn := false,
               iceFailureRecoveryTimerOn := true}

/-- `restartIce` (lite.js 327-353). Returns false when destroyed/destroying,
not the initiator, or already restarting; otherwise restarts the armed
recovery timer if any, resets gathering-complete state and its timer, clears
the negotiating flag, sets the restarting flag, calls the engine's
`restartIce` when available, and requests a negotiation round. -/
def restartIce (s : PeerState) : PeerState × Bool × List Effect :=
  if s.destroyed = true ∨ s.destroying = true then (s, false, [])
  else if s.initiator = false then (s, false, [])
  else if s.isRestartingIce = true then (s, false, [])
  else
    let s := if s.iceFailureRecoveryTimerOn = true then
        startIceFailureRecoveryTimeout {s with iceFailureRecoveryTimerOn := false}
      else s
    let s := {s with iceGatheringComplete := false,
                     iceGatheringCompleteTimerOn := false,
                     isNegotiating := false,
                     isRestartingIce := true}
    let effs := if s.pcHasRestartIce = true then [Effect.engineRestartIce] else []
    ((needsNegotiation s).1, true, effs)

/-- Claim C3: `restartIce()` returns false exactly when the peer is destroyed
or destroying, not the initiator, or already restarting; on the true path it
resets the gathering-complete flag, cancels the gathering timer, clears the
negotiating flag, sets the restarting flag, invokes the engine restart
primitive exactly when available, and requests a negotiation round (leaves
the batching flag set). -/
theorem restartIce_spec (s : PeerState) :
    ((restartIce s).2.1 = false ↔
      (s.destroyed = true ∨ s.destroying = true ∨ s.initiator = false ∨
        s.isRestartingIce = true)) ∧
    (s.destroyed = false → s.destroying = false → s.initiator = true →
      s.isRestartingIce = false →
      (restartIce s).2.1 = true ∧
      (restartIce s).1.iceGatheringComplete = false ∧
      (restartIce s).1.iceGatheringCompleteTimerOn = false ∧
      (restartIce s).1.isNegotiating = false ∧
      (restartIce s).1.isRestartingIce = true ∧
      (restartIce s).2.2 =
        (if s.pcHasRestartIce = true then [Effect.engineRestartIce] else []) ∧
      (restartIce s).1.batchedNegotiation = true) := by
  constructor
  · by_cases h1 : s.destroyed = true <;>
      by_cases h2 : s.destroying = true <;>
      by_cases h3 : s.initiator = true <;>
      by_cases h4 : s.isRestartingIce = true <;>
      simp_all [restartIce]
  · intro h1 h2 h3 h4
    by_cases h5 : s.iceFailureRecoveryTimerOn = true <;>
      by_cases h6 : s.batchedNegotiation = true <;>
      simp_all [restartIce, startIceFailureRecoveryTimeout, needsNegotiation]

/-- Witness for `restartIce_spec` on a fresh initiator state. -/
theorem restartIce_spec_witness :
    (restartIce (initState true .onFailure false true)).2.1 = true ∧
    (restartIce (initState true .onFailure false true)).1.isRestartingIce = true :=
  ⟨((restartIce_spec (initState true .onFailure false true)).2
      (by decide) (by decide) (by decide) (by decide)).1,
   ((restartIce_spec (initState true .onFailure false true)).2
      (by decide) (by decide) (by decide) (by decide)).2.2.2.2.1⟩

/-! ## Media sender registry (src/index.ts `addTrack`, `removeTrack`,
`replaceTrack`, `addStream`, `removeStream`, `addTransceiver`)

The nested JS `Map`s (`_senderMap : track → (stream → sender)`) are modelled
as association lists keyed by `Nat` identities, with JS `Map.get`/`Map.set`
as `mget`/`mset`. -/

/-- JS `Map.get`: first binding of the key, if any. -/
def mget {α : Type} : List (Nat × α) → Nat → Option α
  | [], _ => none
  | (k', v) :: rest, k => if k' = k then some v else mget rest k

/-- JS `Map.set`: replace the binding in place, or append a new one. -/
def mset {α : Type} : List (Nat × α) → Nat → α → List (Nat × α)
  | [], k, v => [(k, v)]
  | (k', v') :: rest, k, v =>
    if k' = k then (k, v) :: rest else (k', v') :: mset rest k v

theorem mget_mset_self {α : Type} (m : List (Nat × α)) (k : Nat) (v : α) :
    mget (mset m k v) k = some v := by
  induction m with
  | nil => simp [mget, mset]
  | cons hd tl ih =>
    by_cases h : hd.1 = k <;> simp [mget, mset, h, ih]

/-- `addTrack` (src/index.ts 91-120): fresh (track, stream) pair adds an
engine sender, records it, and requests negotiation; a live association
throws `ERR_SENDER_ALREADY_ADDED`; a removed one throws `ERR_SENDER_REMOVED`. -/
def addTrack (s : PeerState) (track stream : Nat) : PeerState × Outcome × List Effect :=
  if s.destroying = true then (s, .ret, [])
  else if s.destroyed = true then (s, .threw "ERR_DESTROYED", [])
  else
    let submap := (mget s.senderMap track).getD []
    match mget submap stream with
    | none =>
      let sender : Sender := ⟨s.nextSenderId, false⟩
      let s2 := {s with senderMap := mset s.senderMap track (mset submap stream sender),
                        nextSenderId := s.nextSenderId + 1}
      ((needsNegotiation s2).1, .ret, [Effect.engineAddTrack track stream])
    | some sender =>
      if sender.removed = true then (s, .threw "ERR_SENDER_REMOVED", [])
      else (s, .threw "ERR_SENDER_ALREADY_ADDED", [])

/-- `removeTrack` (src/index.ts 164-196): unknown association throws
`ERR_TRACK_NOT_ADDED`; otherwise mark the sender removed (mutating the object
held in the map), ask the engine to remove it (success path; the
`NS_ERROR_UNEXPECTED` queueing branch is driven by the engine throwing), and
request negotiation. -/
def removeTrack (s : PeerState) (track stream : Nat) : PeerState × Outcome × List Effect :=
  if s.destroying = true then (s, .ret, [])
  else if s.destroyed = true then (s, .threw "ERR_DESTROYED", [])
  else
    let submap := mget s.senderMap track
    match submap.bind (fun sm => mget sm stream) with
    | none => (s, .threw "ERR_TRACK_NOT_ADDED", [])
    | some sender =>
      let sender2 := {sender with removed := true}
      let newMap := mset s.senderMap track (mset (submap.getD []) stream sender2)
      ((needsNegotiation {s with senderMap := newMap}).1, .ret,
        [Effect.engineRemoveTrack sender.id])

/-- `replaceTrack` (src/index.ts 128-157): unknown old association throws
`ERR_TRACK_NOT_ADDED`; otherwise rebind the submap under the new track and
delegate to the sender's `replaceTrack`, destroying the peer when the engine
lacks it. -/
def replaceTrack (s : PeerState) (oldTrack newTrack stream : Nat) :
    PeerState × Outcome × List Effect :=
  if s.destroying = true then (s, .ret, [])
  else if s.destroyed = true then (s, .threw "ERR_DESTROYED", [])
  else
    let submap := mget s.senderMap oldTrack
    match submap.bind (fun sm => mget sm stream) with
    | none => (s, .threw "ERR_TRACK_NOT_ADDED", [])
    | some sender =>
      let s2 := {s with senderMap := mset s.senderMap newTrack (submap.getD [])}
      if s2.senderHasReplaceTrack = true then
        (s2, .ret, [Effect.engineReplaceTrack sender.id newTrack])
      else
        ({s2 with destroying := true}, .ret,
          [Effect.fatalDestroy "ERR_UNSUPPORTED_REPLACETRACK"
            "replaceTrack is not supported in this browser"])

/-- `stream.getTracks().forEach(track => this.addTrack(track, stream))`; a
throw inside `forEach` propagates and aborts the loop. -/
def addTracksLoop (s : PeerState) (stream : Nat) :
    List Nat → PeerState × Outcome × List Effect
  | [] => (s, .ret, [])
  | t :: rest =>
    match addTrack s t stream with
    | (s1, .threw c, e) => (s1, .threw c, e)
    | (s1, _, e) =>
      let r := addTracksLoop s1 stream rest
      (r.1, r.2.1, e ++ r.2.2)

/-- `addStream` (src/index.ts 71-84): guards, then `addTrack` per track of
the stream. -/
def addStream (s : PeerState) (tracks : List Nat) (stream : Nat) :
    PeerState × Outcome × List Effect :=
  if s.destroying = true then (s, .ret, [])
  else if s.destroyed = true then (s, .threw "ERR_DESTROYED", [])
  else addTracksLoop s stream tracks

/-- `stream.getTracks().forEach(track => this.removeTrack(track, stream))`. -/
def removeTracksLoop (s : PeerState) (stream : Nat) :
    List Nat → PeerState × Outcome × List Effect
  | [] => (s, .ret, [])
  | t :: rest =>
    match removeTrack s t stream with
    | (s1, .threw c, e) => (s1, .threw c, e)
    | (s1, _, e) =>
      let r := removeTracksLoop s1 stream rest
      (r.1, r.2.1, e ++ r.2.2)

/-- `removeStream` (src/index.ts 201-214). -/
def removeStream (s : PeerState) (tracks : List Nat) (stream : Nat) :
    PeerState × Outcome × List Effect :=
  if s.destroying = true then (s, .ret, [])
  else if s.destroyed = true then (s, .threw "ERR_DESTROYED", [])
  else removeTracksLoop s stream tracks

/-- `addTransceiver` (src/index.ts 41-64): the initiator adds the transceiver
on the engine and requests negotiation; a responder relays a
transceiverRequest signal instead. -/
def addTransceiver (s : PeerState) (kind : Nat) : PeerState × Outcome × List Effect :=
  if s.destroying = true then (s, .ret, [])
  else if s.destroyed = true then (s, .threw "ERR_DESTROYED", [])
  else if s.initiator = true then
    ((needsNegotiation s).1, .ret, [Effect.engineAddTransceiver kind])
  else
    (s, .ret, [Effect.emitSignalTransceiverRequest kind])

/-- Claim C8: from a state with no association for (track, stream), a first
`addTrack` succeeds; a second identical call throws
`ERR_SENDER_ALREADY_ADDED` leaving state and effects untouched; after
`removeTrack`, re-adding throws `ERR_SENDER_REMOVED`, again leaving the state
untouched — so in both failure cases no sender is added, no negotiation is
requested, and the peer is not destroyed. -/
theorem addTrack_duplicate_and_removed_errors (s : PeerState) (track stream : Nat)
    (hdg : s.destroying = false) (hdd : s.destroyed = false)
    (hfresh : mget ((mget s.senderMap track).getD []) stream = none) :
    (addTrack s track stream).2.1 = .ret ∧
    addTrack (addTrack s track stream).1 track stream =
      ((addTrack s track stream).1, .threw "ERR_SENDER_ALREADY_ADDED", []) ∧
    (removeTrack (addTrack s track stream).1 track stream).2.1 = .ret ∧
    addTrack (removeTrack (addTrack s track stream).1 track stream).1 track stream =
      ((removeTrack (addTrack s track stream).1 track stream).1,
        .threw "ERR_SENDER_REMOVED", []) := by
  have h1 : addTrack s track stream =
      ((needsNegotiation {s with
          senderMap := mset s.senderMap track
            (mset ((mget s.senderMap track).getD []) stream ⟨s.nextSenderId, false⟩),
          nextSenderId := s.nextSenderId + 1}).1, .ret,
        [Effect.engineAddTrack track stream]) := by
    simp [addTrack, hdg, hdd, hfresh]
  by_cases hb : s.batchedNegotiation = true <;>
    simp_all [addTrack, removeTrack, needsNegotiation, hdg, hdd, hfresh,
      mget_mset_self]

/-- Witness for `addTrack_duplicate_and_removed_errors` on an empty registry. -/
theorem addTrack_duplicate_and_removed_errors_witness :
    (addTrack (initState true .disabled false false) 5 7).2.1 = .ret ∧
    addTrack (addTrack (initState true .disabled false false) 5 7).1 5 7 =
      ((addTrack (initState true .disabled false false) 5 7).1,
        .threw "ERR_SENDER_ALREADY_ADDED", []) :=
  ⟨(addTrack_duplicate_and_removed_errors (initState true .disabled false false) 5 7
      (by decide) (by decide) (by decide)).1,
   (addTrack_duplicate_and_removed_errors (initState true .disabled false false) 5 7
      (by decide) (by decide) (by decide)).2.1⟩

/-! ## Destruction, connectivity monitor and stream adapter (lite.js) -/

/-- `__destroy(err)` / `_destroy` entry (lite.js 384-392): a repeated call is
a no-op; otherwise set `_destroying` and remember the fatal error (teardown
itself runs on a timer, here the `destroyFinish` event). -/
def doDestroy (err : Option (String × String)) (s : PeerState) :
    PeerState × List Effect :=
  if s.destroyed = true ∨ s.destroying = true then (s, [])
  else
    ({s with destroying := true},
      match err with
      | some (c, m) => [Effect.fatalDestroy c m]
      | none => [Effect.destroyNoError])

/-- The deferred teardown body of `_destroy` (lite.js 395-442): clear
connection flags and slots, close handles, mark the peer destroyed. -/
def destroyFinish (s : PeerState) : PeerState × List Effect :=
  if s.destroying = true ∧ s.destroyed = false then
    ({s with destroyed := true, connected := false, pcReady := false,
             channelReady := false, chunk := none, cbPending := false,
             channelState := .closed, senderMap := []}, [])
  else (s, [])

/-- `_maybeReady` up to its first return (lite.js 757-761): start the
asynchronous candidate-pair resolution only when the engine and the channel
are both ready and no resolution is in flight. -/
def maybeReady (s : PeerState) : PeerState :=
  if s.connecting = true ∨ s.pcReady = false ∨ s.channelReady = false then s
  else {s with connecting := true, statsPending := true}

/-- `_onIceGatheringComplete` (lite.js 698-706). -/
def onIceGatheringComplete (s : PeerState) : PeerState × List Effect :=
  if s.iceGatheringComplete = true then (s, [])
  else
    ({s with iceGatheringComplete := true, iceGatheringCompleteTimerOn := false},
      [Effect.emitIceGatheringCompleteEvent])

/-- lite.js 670-678: entering connected/completed cancels the recovery timer,
marks the engine ready, clears the restarting flag and tries to resolve
connectivity. -/
def iceConnectedBlock (s : PeerState) (conn : IceConnState) : PeerState :=
  if conn = .connected ∨ conn = .completed then
    maybeReady {s with iceFailureRecoveryTimerOn := false, pcReady := true,
                       isRestartingIce := false}
  else s

/-- lite.js 680-686: closed is fatal; failed is fatal when no restart policy
applies and no restart is in flight, otherwise it arms the recovery timer. -/
def iceFailureBlock (s : PeerState) (conn : IceConnState) : PeerState × List Effect :=
  if conn = .closed then
    doDestroy (some ("ERR_ICE_CONNECTION_CLOSED", "Ice connection closed.")) s
  else if conn = .failed ∧ s.iceRestartEnabled = .disabled ∧
      s.isRestartingIce = false then
    doDestroy (some ("ERR_ICE_CONNECTION_FAILURE", "Ice connection failed.")) s
  else if conn = .failed ∧ (s.iceRestartEnabled ≠ .disabled ∨
      s.isRestartingIce = true) then
    (startIceFailureRecoveryTimeout s, [])
  else (s, [])

/-- lite.js 688-695 (and 644-651): the initiator auto-restarts ICE on failed
under the onFailure policy, or on disconnected under onDisconnect. -/
def autoRestartBlock (s : PeerState) (failed disconnected : Bool) :
    PeerState × List Effect :=
  if ((failed = true ∧ s.iceRestartEnabled = .onFailure) ∨
      (disconnected = true ∧ s.iceRestartEnabled = .onDisconnect)) ∧
      s.initiator = true ∧ s.isRestartingIce = false then
    let r := restartIce s
    (r.1, r.2.2)
  else (s, [])

/-- `_onIceStateChange` (lite.js 654-696), reading the engine's current ICE
connection and gathering states. -/
def onIceStateChange (s : PeerState) (conn : IceConnState) (gath : IceGathState) :
    PeerState × List Effect :=
  if s.destroyed = true then (s, [])
  else
    let r1 := if gath = .complete then onIceGatheringComplete s else (s, [])
    let s2 := iceConnectedBlock r1.1 conn
    let r3 := iceFailureBlock s2 conn
    let r4 := autoRestartBlock r3.1 (decide (conn = .failed)) (decide (conn = .disconnected))
    (r4.1, Effect.emitIceStateChangeEvent :: (r1.2 ++ r3.2 ++ r4.2))

/-- `_onConnectionStateChange` (lite.js 628-652). -/
def onConnectionStateChange (s : PeerState) (st : ConnState) : PeerState × List Effect :=
  if s.destroyed = true ∨ s.destroying = true then (s, [])
  else
    let s := if st ≠ .connected then {s with connected := false} else s
    if st = .failed ∧ s.iceRestartEnabled = .disabled ∧ s.isRestartingIce = false then
      doDestroy (some ("ERR_CONNECTION_FAILURE", "Connection failed.")) s
    else
      let s := if st = .failed then startIceFailureRecoveryTimeout s else s
      autoRestartBlock s (decide (st = .failed)) (decide (st = .disconnected))

/-- The `_iceFailureRecoveryTimer` callback (lite.js 366-375): when it fires
with the ICE connection not back to connected/completed, fatally destroy with
the recovery error. -/
def recoveryTimerElapse (s : PeerState) (conn : IceConnState) : PeerState × List Effect :=
  if s.iceFailureRecoveryTimerOn = false then (s, [])
  else
    let s := {s with iceFailureRecoveryTimerOn := false}
    if conn = .connected ∨ conn = .completed then (s, [])
    else
      doDestroy (some ("ERR_ICE_CONNECTION_FAILURE", "Ice connection recovery failed.")) s

/-- The `_iceGatheringCompleteTimer` callback (lite.js 538-544). -/
def gatheringTimerElapse (s : PeerState) : PeerState × List Effect :=
  if s.iceGatheringCompleteTimerOn = false then (s, [])
  else if s.iceGatheringComplete = true then
    ({s with iceGatheringCompleteTimerOn := false}, [])
  else
    let r := onIceGatheringComplete s
    (r.1, Effect.emitIceTimeout :: r.2)

/-- `_onSignalingStateChange` (lite.js 911-937) when the engine reports
`stable`: clear the negotiating flag, flush queued sender removals (each sets
the queued flag), then either replay the queued negotiation or emit
`negotiated`. -/
def onSignalingStable (s : PeerState) : PeerState × List Effect :=
  if s.destroyed = true then (s, [])
  else
    let s := {s with isNegotiating := false}
    let removals := s.sendersAwaitingStable.map Effect.engineRemoveTrack
    let s := if s.sendersAwaitingStable = [] then s
      else {s with queuedNegotiation := true, sendersAwaitingStable := []}
    if s.queuedNegotiation = true then
      ((needsNegotiation {s with queuedNegotiation := false}).1,
        removals ++ [Effect.emitSignalingStateChangeEvent])
    else
      (s, removals ++ [Effect.emitNegotiated, Effect.emitSignalingStateChangeEvent])

/-- The `getStats` callback of `_maybeReady` in the round where a selected
candidate pair is resolved (or candidate-pair reporting is absent)
(lite.js 767-899): record connectivity, flush the buffered chunk, and emit
`connect` the first time or `reconnect` afterwards. -/
def statsResolve (s : PeerState) : PeerState × List Effect :=
  if s.statsPending = false then (s, [])
  else
    let s := {s with statsPending := false}
    if s.destroyed = true ∨ s.destroying = true then (s, [])
    else
      let s := {s with connecting := false, connected := true}
      let r1 : PeerState × List Effect :=
        match s.chunk with
        | some c =>
          ({s with sent := s.sent ++ [c], chunk := none, cbPending := false},
            [Effect.cbOk])
        | none => (s, [])
      let s := r1.1
      if s.connectedOnce = false then
        ({s with connectedOnce := true}, r1.2 ++ [Effect.emitConnect])
      else
        (s, r1.2 ++ [Effect.emitReconnect])

/-- A `getStats` round that found no selected pair yet and re-arms the
100 ms retry (lite.js 861-863), or returns because the peer is going away. -/
def statsRetry (s : PeerState) : PeerState × List Effect :=
  if s.statsPending = true ∧ (s.destroyed = true ∨ s.destroying = true) then
    ({s with statsPending := false}, [])
  else (s, [])

/-- The channel's `onopen` (lite.js 979-984), together with the channel's own
readyState turning `open`. -/
def onChannelOpen (s : PeerState) : PeerState × List Effect :=
  let s := {s with channelState := .opened}
  if s.connected = true ∨ s.destroyed = true then (s, [])
  else (maybeReady {s with channelReady := true}, [])

/-- The channel's `onclose` (lite.js 986-990), together with the channel's
readyState turning `closed`. -/
def onChannelClose (s : PeerState) : PeerState × List Effect :=
  let s := {s with channelState := .closed}
  if s.destroyed = true then (s, [])
  else doDestroy none s

/-- UTF-8 bytes of a text frame (`text2arr` on a string). -/
def utf8Bytes (t : String) : List Nat :=
  t.toUTF8.toList.map (fun b => b.toNat)

/-- `text2arr` of uint8-util as used on the non-ArrayBuffer branch: a string
is UTF-8‑encoded; an already-byte payload keeps its bytes. (A channel with
binaryType `arraybuffer` only ever delivers `arrayBuffer` or `strData`.) -/
def text2arrBytes : MsgData → List Nat
  | .arrayBuffer b => b
  | .uint8 b => b
  | .strData t => utf8Bytes t

/-- `_onChannelMessage` (lite.js 960-969): nothing on a destroyed peer;
otherwise an ArrayBuffer becomes its `Uint8Array` view, any other payload is
byte-converted when object mode is off, and pushed. -/
def onChannelMessage (s : PeerState) (d : MsgData) : Option MsgData :=
  if s.destroyed = true then none
  else
    match d with
    | .arrayBuffer b => some (.uint8 b)
    | d => if s.objectMode = false then some (.uint8 (text2arrBytes d)) else some d

/-- `send` (lite.js 268-272). -/
def send (s : PeerState) (c : Nat) : PeerState × Outcome × List Effect :=
  if s.destroying = true then (s, .ret, [])
  else if s.destroyed = true then (s, .threw "ERR_DESTROYED", [])
  else ({s with sent := s.sent ++ [c]}, .ret, [])

/-- `_write` (lite.js 494-514): destroyed fails the callback; connected sends
at once, holding the callback under backpressure; otherwise the chunk and
callback are buffered for the first connect. -/
def peerWrite (s : PeerState) (c : Nat) : PeerState × List Effect :=
  if s.destroyed = true then (s, [Effect.cbErr "ERR_DATA_CHANNEL"])
  else if s.connected = true then
    let s := {s with sent := s.sent ++ [c]}
    if s.bufferedAmountHigh = true then ({s with cbPending := true}, [])
    else (s, [Effect.cbOk])
  else ({s with chunk := some c, cbPending := true}, [])

/-- lite.js 216-219: a renegotiate request makes the initiator request a
negotiation round. -/
def signalRenegotiateBlock (s : PeerState) (renegotiate : Bool) : PeerState :=
  if renegotiate = true ∧ s.initiator = true then (needsNegotiation s).1 else s

/-- lite.js 220-223: a transceiverRequest makes the initiator add the
transceiver. -/
def signalTransceiverBlock (s : PeerState) (o : Option Nat) : PeerState × List Effect :=
  match o with
  | some kind =>
    if s.initiator = true then
      let r := addTransceiver s kind
      (r.1, r.2.2)
    else (s, [])
  | none => (s, [])

/-- lite.js 224-230: a candidate is applied when a remote description exists,
otherwise held in `_pendingCandidates`. -/
def signalCandidateBlock (s : PeerState) (o : Option Nat) : PeerState × List Effect :=
  match o with
  | some c =>
    if s.hasRemoteDescription = true then (s, [Effect.engineAddIceCandidate c])
    else ({s with pendingCandidates := s.pendingCandidates ++ [c]}, [])
  | none => (s, [])

/-- lite.js 247-249: an empty payload shape is a fatal signaling error. -/
def signalInvalidBlock (s : PeerState) (d : SignalData) : PeerState × List Effect :=
  if d.sdpIsOffer.isNone = true ∧ d.candidate.isNone = true ∧ d.renegotiate = false ∧
      d.transceiverRequest.isNone = true then
    doDestroy (some ("ERR_SIGNALING", "signal() called with invalid signal data")) s
  else (s, [])

/-- `signal` (lite.js 204-250): the four recognised payload fields handled in
order; an empty shape is a fatal signaling error. -/
def signal (s : PeerState) (d : SignalData) : PeerState × Outcome × List Effect :=
  if s.destroying = true then (s, .ret, [])
  else if s.destroyed = true then (s, .threw "ERR_DESTROYED", [])
  else
    let s1 := signalRenegotiateBlock s d.renegotiate
    let r2 := signalTransceiverBlock s1 d.transceiverRequest
    let r3 := signalCandidateBlock r2.1 d.candidate
    let e4 : List Effect :=
      if d.sdpIsOffer.isSome = true then [Effect.engineSetRemoteDescription] else []
    let r5 := signalInvalidBlock r3.1 d
    (r5.1, .ret, r2.2 ++ r3.2 ++ e4 ++ r5.2)

/-- The `.then` completion of `setRemoteDescription` (lite.js 233-242):
record the remote description, drain pending candidates in arrival order,
and create an answer when the description was an offer. -/
def remoteDescriptionApplied (s : PeerState) (isOffer : Bool) : PeerState × List Effect :=
  if s.destroyed = true then (s, [])
  else
    ({s with hasRemoteDescription := true, pendingCandidates := []},
      s.pendingCandidates.map Effect.engineAddIceCandidate ++
        (if isOffer then [Effect.scheduleCreateAnswer] else []))

/-- The public `connected` getter (lite.js 196-198):
`this._connected && this._channel.readyState === 'open'`. -/
def connectedGetter (s : PeerState) : Bool :=
  s.connected && (s.channelState == .opened)

/-! ## The event machine: reachable states of a peer -/

/-- An asynchronous completion or application call delivered to the peer on
its single logical thread. -/
inductive Ev
  | iceStateChange (conn : IceConnState) (gath : IceGathState)
  | connectionStateChange (st : ConnState)
  | channelOpen
  | channelClosingObserved
  | channelClose
  | channelMessage (d : MsgData)
  | statsResolveEv
  | statsRetryEv
  | recoveryElapse (conn : IceConnState)
  | gatheringElapse
  | signalingStable
  | destroyStart
  | destroyFinishEv
  | callNeedsNegotiation
  | runMicrotask
  | callNegotiate
  | callRestartIce
  | callSignal (d : SignalData)
  | callSend (c : Nat)
  | callAddTrack (track stream : Nat)
  | callRemoveTrack (track stream : Nat)
  | writeChunk (c : Nat)
  | remoteDescApplied (isOffer : Bool)
  | setBufferedHigh (b : Bool)
  deriving DecidableEq, Repr

/-- Deliver one event: the handler's new state and its effects. -/
def stepE (s : PeerState) : Ev → PeerState × List Effect
  | .iceStateChange conn gath => onIceStateChange s conn gath
  | .connectionStateChange st => onConnectionStateChange s st
  | .channelOpen => onChannelOpen s
  | .channelClosingObserved => ({s with channelState := .closing}, [])
  | .channelClose => onChannelClose s
  | .channelMessage d =>
    (s, match onChannelMessage s d with
        | some p => [Effect.pushData p]
        | none => [])
  | .statsResolveEv => statsResolve s
  | .statsRetryEv => statsRetry s
  | .recoveryElapse conn => recoveryTimerElapse s conn
  | .gatheringElapse => gatheringTimerElapse s
  | .signalingStable => onSignalingStable s
  | .destroyStart => doDestroy none s
  | .destroyFinishEv => destroyFinish s
  | .callNeedsNegotiation => ((needsNegotiation s).1, [])
  | .runMicrotask =>
    let r := runNegotiationMicrotask s
    (r.1, r.2.2)
  | .callNegotiate =>
    let r := negotiate s
    (r.1, r.2.2)
  | .callRestartIce =>
    let r := restartIce s
    (r.1, r.2.2)
  | .callSignal d =>
    let r := signal s d
    (r.1, r.2.2)
  | .callSend c =>
    let r := send s c
    (r.1, r.2.2)
  | .callAddTrack track stream =>
    let r := addTrack s track stream
    (r.1, r.2.2)
  | .callRemoveTrack track stream =>
    let r := removeTrack s track stream
    (r.1, r.2.2)
  | .writeChunk c => peerWrite s c
  | .remoteDescApplied isOffer => remoteDescriptionApplied s isOffer
  | .setBufferedHigh b => ({s with bufferedAmountHigh := b}, [])

/-- Fold a trace of events over a state. -/
def steps (s : PeerState) (evs : List Ev) : PeerState :=
  evs.foldl (fun s e => (stepE s e).1) s

/-- The machine invariant: `_connected` presupposes both ready flags, a
stats poll only runs while both ready flags hold (unless the peer is going
away), and `destroyed` is only reached through `destroying`. -/
def Inv (s : PeerState) : Prop :=
  (s.connected = true → s.pcReady = true ∧ s.channelReady = true) ∧
  (s.statsPending = true → s.destroying = false → s.destroyed = false →
    s.pcReady = true ∧ s.channelReady = true) ∧
  (s.destroyed = true → s.destroying = true)

/-- The six fields `Inv` talks about. A handler that leaves them unchanged
trivially preserves `Inv`. -/
def coreFlags (s : PeerState) : Bool × Bool × Bool × Bool × Bool × Bool :=
  (s.connected, s.pcReady, s.channelReady, s.statsPending, s.destroying, s.destroyed)

theorem inv_congr {s t : PeerState} (h : coreFlags t = coreFlags s) (hs : Inv s) :
    Inv t := by
  unfold coreFlags at h
  simp only [Prod.mk.injEq] at h
  obtain ⟨e1, e2, e3, e4, e5, e6⟩ := h
  unfold Inv at hs ⊢
  rw [e1, e2, e3, e4, e5, e6]
  exact hs

theorem coreFlags_needsNegotiation (s : PeerState) :
    coreFlags (needsNegotiation s).1 = coreFlags s := by
  unfold needsNegotiation
  split <;> rfl

theorem coreFlags_negotiate (s : PeerState) :
    coreFlags (negotiate s).1 = coreFlags s := by
  unfold negotiate
  try dsimp only
  repeat' split
  all_goals rfl

theorem coreFlags_runNegotiationMicrotask (s : PeerState) :
    coreFlags (runNegotiationMicrotask s).1 = coreFlags s := by
  unfold runNegotiationMicrotask negotiate
  try dsimp only
  repeat' split
  all_goals rfl

theorem coreFlags_startIceFailureRecoveryTimeout (s : PeerState) :
    coreFlags (startIceFailureRecoveryTimeout s) = coreFlags s := by
  unfold startIceFailureRecoveryTimeout
  try dsimp only
  repeat' split
  all_goals rfl

theorem coreFlags_restartIce (s : PeerState) :
    coreFlags (restartIce s).1 = coreFlags s := by
  unfold restartIce startIceFailureRecoveryTimeout needsNegotiation
  try dsimp only
  repeat' split
  all_goals rfl

theorem coreFlags_onIceGatheringComplete (s : PeerState) :
    coreFlags (onIceGatheringComplete s).1 = coreFlags s := by
  unfold onIceGatheringComplete
  split <;> rfl

theorem coreFlags_addTransceiver (s : PeerState) (kind : Nat) :
    coreFlags (addTransceiver s kind).1 = coreFlags s := by
  unfold addTransceiver needsNegotiation
  try dsimp only
  repeat' split
  all_goals rfl

theorem coreFlags_addTrack (s : PeerState) (track stream : Nat) :
    coreFlags (addTrack s track stream).1 = coreFlags s := by
  unfold addTrack needsNegotiation
  try dsimp only
  repeat' split
  all_goals rfl

theorem coreFlags_removeTrack (s : PeerState) (track stream : Nat) :
    coreFlags (removeTrack s track stream).1 = coreFlags s := by
  unfold removeTrack needsNegotiation
  try dsimp only
  repeat' split
  all_goals rfl

theorem coreFlags_send (s : PeerState) (c : Nat) :
    coreFlags (send s c).1 = coreFlags s := by
  unfold send
  try dsimp only
  repeat' split
  all_goals rfl

theorem coreFlags_peerWrite (s : PeerState) (c : Nat) :
    coreFlags (peerWrite s c).1 = coreFlags s := by
  unfold peerWrite
  try dsimp only
  repeat' split
  all_goals rfl

theorem coreFlags_onSignalingStable (s : PeerState) :
    coreFlags (onSignalingStable s).1 = coreFlags s := by
  unfold onSignalingStable needsNegotiation
  try dsimp only
  repeat' split
  all_goals rfl

theorem coreFlags_gatheringTimerElapse (s : PeerState) :
    coreFlags (gatheringTimerElapse s).1 = coreFlags s := by
  unfold gatheringTimerElapse onIceGatheringComplete
  try dsimp only
  repeat' split
  all_goals rfl

theorem coreFlags_remoteDescriptionApplied (s : PeerState) (b : Bool) :
    coreFlags (remoteDescriptionApplied s b).1 = coreFlags s := by
  unfold remoteDescriptionApplied
  split <;> rfl

theorem inv_doDestroy (err : Option (String × String)) (s : PeerState)
    (hs : Inv s) : Inv (doDestroy err s).1 := by
  unfold Inv at hs ⊢
  unfold doDestroy
  split
  · exact hs
  · simp_all

theorem inv_maybeReady (s : PeerState) (hs : Inv s) : Inv (maybeReady s) := by
  unfold Inv at hs ⊢
  unfold maybeReady
  split
  · exact hs
  · simp_all

theorem inv_iceConnectedBlock (s : PeerState) (conn : IceConnState)
    (hs : Inv s) : Inv (iceConnectedBlock s conn) := by
  unfold iceConnectedBlock
  split
  · apply inv_maybeReady
    unfold Inv at hs ⊢
    simp_all
  · exact hs

theorem inv_iceFailureBlock (s : PeerState) (conn : IceConnState)
    (hs : Inv s) : Inv (iceFailureBlock s conn).1 := by
  unfold iceFailureBlock
  split
  · exact inv_doDestroy _ _ hs
  · split
    · exact inv_doDestroy _ _ hs
    · split
      · exact inv_congr (coreFlags_startIceFailureRecoveryTimeout s) hs
      · exact hs

theorem inv_autoRestartBlock (s : PeerState) (f d : Bool) (hs : Inv s) :
    Inv (autoRestartBlock s f d).1 := by
  unfold autoRestartBlock
  split
  · exact inv_congr (coreFlags_restartIce s) hs
  · exact hs

theorem inv_onIceStateChange (s : PeerState) (conn : IceConnState)
    (gath : IceGathState) (hs : Inv s) : Inv (onIceStateChange s conn gath).1 := by
  unfold onIceStateChange
  split
  · exact hs
  · apply inv_autoRestartBlock
    apply inv_iceFailureBlock
    apply inv_iceConnectedBlock
    split
    · exact inv_congr (coreFlags_onIceGatheringComplete s) hs
    · exact hs

theorem inv_onConnectionStateChange (s : PeerState) (st : ConnState)
    (hs : Inv s) : Inv (onConnectionStateChange s st).1 := by
  unfold onConnectionStateChange
  split
  · exact hs
  · dsimp only
    have hs2 : Inv (if st ≠ ConnState.connected then {s with connected := false} else s) := by
      split
      · unfold Inv at hs ⊢
        simp_all
      · exact hs
    generalize (if st ≠ ConnState.connected then {s with connected := false} else s) = s1 at hs2 ⊢
    split
    · exact inv_doDestroy _ _ hs2
    · apply inv_autoRestartBlock
      split
      · exact inv_congr (coreFlags_startIceFailureRecoveryTimeout _) hs2
      · exact hs2

theorem coreFlags_signalRenegotiateBlock (s : PeerState) (b : Bool) :
    coreFlags (signalRenegotiateBlock s b) = coreFlags s := by
  unfold signalRenegotiateBlock needsNegotiation
  repeat' split
  all_goals rfl

theorem coreFlags_signalTransceiverBlock (s : PeerState) (o : Option Nat) :
    coreFlags (signalTransceiverBlock s o).1 = coreFlags s := by
  unfold signalTransceiverBlock addTransceiver needsNegotiation
  cases o <;> dsimp only <;> first
  | rfl
  | split_ifs <;> rfl

theorem coreFlags_signalCandidateBlock (s : PeerState) (o : Option Nat) :
    coreFlags (signalCandidateBlock s o).1 = coreFlags s := by
  unfold signalCandidateBlock
  cases o <;> dsimp only <;> first
  | rfl
  | split_ifs <;> rfl

theorem inv_signalInvalidBlock (s : PeerState) (d : SignalData) (hs : Inv s) :
    Inv (signalInvalidBlock s d).1 := by
  unfold signalInvalidBlock
  split
  · exact inv_doDestroy _ _ hs
  · exact hs

theorem inv_signal (s : PeerState) (d : SignalData) (hs : Inv s) :
    Inv (signal s d).1 := by
  unfold signal
  split
  · exact hs
  · split
    · exact hs
    · apply inv_signalInvalidBlock
      apply inv_congr (coreFlags_signalCandidateBlock _ _)
      apply inv_congr (coreFlags_signalTransceiverBlock _ _)
      exact inv_congr (coreFlags_signalRenegotiateBlock _ _) hs

theorem inv_statsResolve (s : PeerState) (hs : Inv s) : Inv (statsResolve s).1 := by
  unfold Inv at hs ⊢
  unfold statsResolve
  try dsimp only
  repeat' split
  all_goals simp_all

theorem inv_statsRetry (s : PeerState) (hs : Inv s) : Inv (statsRetry s).1 := by
  unfold Inv at hs ⊢
  unfold statsRetry
  try dsimp only
  repeat' split
  all_goals simp_all

theorem inv_onChannelOpen (s : PeerState) (hs : Inv s) : Inv (onChannelOpen s).1 := by
  unfold Inv at hs ⊢
  unfold onChannelOpen maybeReady
  try dsimp only
  repeat' split
  all_goals simp_all

theorem inv_onChannelClose (s : PeerState) (hs : Inv s) : Inv (onChannelClose s).1 := by
  unfold Inv at hs ⊢
  unfold onChannelClose doDestroy
  try dsimp only
  repeat' split
  all_goals simp_all

theorem inv_destroyFinish (s : PeerState) (hs : Inv s) : Inv (destroyFinish s).1 := by
  unfold Inv at hs ⊢
  unfold destroyFinish
  try dsimp only
  repeat' split
  all_goals simp_all

theorem inv_recoveryTimerElapse (s : PeerState) (conn : IceConnState)
    (hs : Inv s) : Inv (recoveryTimerElapse s conn).1 := by
  unfold Inv at hs ⊢
  unfold recoveryTimerElapse doDestroy
  try dsimp only
  repeat' split
  all_goals simp_all

/-- Every event delivery preserves the machine invariant. -/
theorem inv_stepE (s : PeerState) (e : Ev) (hs : Inv s) : Inv (stepE s e).1 := by
  cases e with
  | iceStateChange conn gath => exact inv_onIceStateChange s conn gath hs
  | connectionStateChange st => exact inv_onConnectionStateChange s st hs
  | channelOpen => exact inv_onChannelOpen s hs
  | channelClosingObserved => exact inv_congr rfl hs
  | channelClose => exact inv_onChannelClose s hs
  | channelMessage d =>
    cases h : onChannelMessage s d <;> simp [stepE, h] <;> exact hs
  | statsResolveEv => exact inv_statsResolve s hs
  | statsRetryEv => exact inv_statsRetry s hs
  | recoveryElapse conn => exact inv_recoveryTimerElapse s conn hs
  | gatheringElapse => exact inv_congr (coreFlags_gatheringTimerElapse s) hs
  | signalingStable => exact inv_congr (coreFlags_onSignalingStable s) hs
  | destroyStart => exact inv_doDestroy none s hs
  | destroyFinishEv => exact inv_destroyFinish s hs
  | callNeedsNegotiation => exact inv_congr (coreFlags_needsNegotiation s) hs
  | runMicrotask => exact inv_congr (coreFlags_runNegotiationMicrotask s) hs
  | callNegotiate => exact inv_congr (coreFlags_negotiate s) hs
  | callRestartIce => exact inv_congr (coreFlags_restartIce s) hs
  | callSignal d => exact inv_signal s d hs
  | callSend c => exact inv_congr (coreFlags_send s c) hs
  | callAddTrack t st => exact inv_congr (coreFlags_addTrack s t st) hs
  | callRemoveTrack t st => exact inv_congr (coreFlags_removeTrack s t st) hs
  | writeChunk c => exact inv_congr (coreFlags_peerWrite s c) hs
  | remoteDescApplied b => exact inv_congr (coreFlags_remoteDescriptionApplied s b) hs
  | setBufferedHigh b => exact inv_congr rfl hs

theorem inv_steps (s : PeerState) (evs : List Ev) (hs : Inv s) :
    Inv (steps s evs) := by
  induction evs generalizing s with
  | nil => exact hs
  | cons e rest ih => exact ih _ (inv_stepE s e hs)

theorem inv_initState (initiator : Bool) (policy : IcePolicy)
    (objectMode pcHasRestartIce : Bool) :
    Inv (initState initiator policy objectMode pcHasRestartIce) := by
  unfold Inv initState
  simp

/-- Claim C4: in every state reachable from construction by any interleaving
of engine events, channel events, timer completions and application calls,
the internal `_connected` flag holds only if both `_pcReady` (ICE reached
connected/completed) and `_channelReady` (channel open) have been observed. -/
theorem connected_requires_both_ready (initiator : Bool) (policy : IcePolicy)
    (objectMode pcHasRestartIce : Bool) (evs : List Ev)
    (h : (steps (initState initiator policy objectMode pcHasRestartIce) evs).connected = true) :
    (steps (initState initiator policy objectMode pcHasRestartIce) evs).pcReady = true ∧
    (steps (initState initiator policy objectMode pcHasRestartIce) evs).channelReady = true :=
  (inv_steps _ evs (inv_initState initiator policy objectMode pcHasRestartIce)).1 h

/-- Witness for `connected_requires_both_ready`: a run that opens the channel,
reaches ICE connected and resolves stats indeed has both flags. -/
theorem connected_requires_both_ready_witness :
    (steps (initState true .disabled false false)
        [Ev.channelOpen, Ev.iceStateChange .connected .new, Ev.statsResolveEv]).pcReady = true ∧
    (steps (initState true .disabled false false)
        [Ev.channelOpen, Ev.iceStateChange .connected .new, Ev.statsResolveEv]).channelReady = true :=
  connected_requires_both_ready true .disabled false false
    [Ev.channelOpen, Ev.iceStateChange .connected .new, Ev.statsResolveEv] (by decide)

/-! ## Remaining claims -/

/-- Claim C5: a chunk written while not yet connected is stored as the single
pending chunk with its callback and not yet sent; the first successful
connectivity resolution sends it exactly once, completes the callback, clears
both slots, emits `connect`, and a chunk written afterwards goes on the wire
after it. -/
theorem write_before_connect_flushed_once (s : PeerState) (c d : Nat)
    (hdd : s.destroyed = false) (hdg : s.destroying = false)
    (hc : s.connected = false) (hp : s.statsPending = true)
    (h1 : s.connectedOnce = false) :
    (peerWrite s c).1.chunk = some c ∧
    (peerWrite s c).1.cbPending = true ∧
    (peerWrite s c).1.sent = s.sent ∧
    (statsResolve (peerWrite s c).1).1.sent = s.sent ++ [c] ∧
    (statsResolve (peerWrite s c).1).1.chunk = none ∧
    (statsResolve (peerWrite s c).1).1.cbPending = false ∧
    Effect.cbOk ∈ (statsResolve (peerWrite s c).1).2 ∧
    Effect.emitConnect ∈ (statsResolve (peerWrite s c).1).2 ∧
    (peerWrite (statsResolve (peerWrite s c).1).1 d).1.sent = s.sent ++ [c, d] := by
  simp [peerWrite, statsResolve, hdd, hdg, hc, hp, h1]
  split <;> simp

/-- Witness for `write_before_connect_flushed_once` at a concrete polling
state. -/
theorem write_before_connect_flushed_once_witness :
    (statsResolve (peerWrite {initState true .disabled false false with
        statsPending := true} 9).1).1.sent =
      (initState true .disabled false false).sent ++ [9] :=
  (write_before_connect_flushed_once
    {initState true .disabled false false with statsPending := true} 9 11
    (by decide) (by decide) (by decide) (by decide) (by decide)).2.2.2.1

/-- The first fatal-destroy error code recorded in an effect list. -/
def fatalCode : List Effect → Option String
  | [] => none
  | .fatalDestroy c _ :: _ => some c
  | _ :: rest => fatalCode rest

/-- The first fatal-destroy error message recorded in an effect list. -/
def fatalMsg : List Effect → Option String
  | [] => none
  | .fatalDestroy _ m :: _ => some m
  | _ :: rest => fatalMsg rest

/-- A peer whose ICE-failure recovery timer is armed. -/
def recoveryArmedPeer : PeerState :=
  {initState true .onFailure false false with iceFailureRecoveryTimerOn := true}

/-- A peer with restarts disabled (the `ERR_ICE_CONNECTION_FAILURE` path of
`_onIceStateChange`). -/
def restartsDisabledPeer : PeerState := initState true .disabled false false

/-- Counterexample to claim C6: the error produced when the recovery timer
elapses unrecovered and the error produced when ICE enters `failed` with
restarts disabled carry the SAME tag, `ERR_ICE_CONNECTION_FAILURE` — not
distinct tags as claimed. -/
theorem ice_recovery_and_failed_same_code :
    fatalCode (recoveryTimerElapse recoveryArmedPeer .disconnected).2 =
      fatalCode (onIceStateChange restartsDisabledPeer .failed .new).2 ∧
    fatalCode (recoveryTimerElapse recoveryArmedPeer .disconnected).2 =
      some "ERR_ICE_CONNECTION_FAILURE" := by
  constructor <;> rfl

/-- Claim C6 (amended): the two errors share the tag
`ERR_ICE_CONNECTION_FAILURE` and are distinguished only by their messages
(`Ice connection recovery failed.` vs `Ice connection failed.`). -/
theorem ice_recovery_and_failed_distinct_messages :
    fatalCode (recoveryTimerElapse recoveryArmedPeer .disconnected).2 =
      some "ERR_ICE_CONNECTION_FAILURE" ∧
    fatalCode (onIceStateChange restartsDisabledPeer .failed .new).2 =
      some "ERR_ICE_CONNECTION_FAILURE" ∧
    fatalMsg (recoveryTimerElapse recoveryArmedPeer .disconnected).2 =
      some "Ice connection recovery failed." ∧
    fatalMsg (onIceStateChange restartsDisabledPeer .failed .new).2 =
      some "Ice connection failed." ∧
    "Ice connection recovery failed." ≠ "Ice connection failed." := by
  refine ⟨rfl, rfl, rfl, rfl, by decide⟩

/-- A peer constructed with `objectMode: true`. -/
def objectModePeer : PeerState := initState true .disabled true false

/-- Counterexample to claim C7: with object mode on, a binary ArrayBuffer
frame is NOT delivered as-is — it is converted to its Uint8Array byte view
first. -/
theorem objectMode_arrayBuffer_not_as_is :
    onChannelMessage objectModePeer (MsgData.arrayBuffer [1, 2, 3]) =
      some (MsgData.uint8 [1, 2, 3]) ∧
    onChannelMessage objectModePeer (MsgData.arrayBuffer [1, 2, 3]) ≠
      some (MsgData.arrayBuffer [1, 2, 3]) := by
  refine ⟨rfl, by decide⟩

/-- Claim C7 (amended): on a non-destroyed peer, an ArrayBuffer frame is
always pushed as its byte view (object mode or not); with object mode off a
text frame is pushed as its UTF-8 bytes; with object mode on a (non-binary)
payload is pushed as-is. -/
theorem onChannelMessage_spec (s : PeerState) (b : List Nat) (t : String)
    (hd : s.destroyed = false) :
    onChannelMessage s (.arrayBuffer b) = some (.uint8 b) ∧
    (s.objectMode = false → onChannelMessage s (.strData t) = some (.uint8 (utf8Bytes t))) ∧
    (s.objectMode = true → onChannelMessage s (.strData t) = some (.strData t)) := by
  refine ⟨?_, ?_, ?_⟩ <;> intros <;> simp_all [onChannelMessage, text2arrBytes]

/-- Witness for `onChannelMessage_spec` on a concrete peer and frames. -/
theorem onChannelMessage_spec_witness :
    onChannelMessage (initState true .disabled false false) (.arrayBuffer [7]) =
      some (.uint8 [7]) :=
  (onChannelMessage_spec (initState true .disabled false false) [7] "a" (by decide)).1

/-- Claim C9 (amended): while the destroying flag holds, every public
operation returns immediately with the state unchanged, no effect and no
throw; `restartIce` returns false. -/
theorem destroying_ops_silent (s : PeerState) (hd : s.destroying = true)
    (d : SignalData) (c kind track stream oldTrack newTrack : Nat)
    (tracks : List Nat) :
    signal s d = (s, .ret, []) ∧
    send s c = (s, .ret, []) ∧
    negotiate s = (s, .ret, []) ∧
    restartIce s = (s, false, []) ∧
    addTransceiver s kind = (s, .ret, []) ∧
    addStream s tracks stream = (s, .ret, []) ∧
    addTrack s track stream = (s, .ret, []) ∧
    replaceTrack s oldTrack newTrack stream = (s, .ret, []) ∧
    removeTrack s track stream = (s, .ret, []) ∧
    removeStream s tracks stream = (s, .ret, []) := by
  refine ⟨?_, ?_, ?_, ?_, ?_, ?_, ?_, ?_, ?_, ?_⟩ <;>
    simp [signal, send, negotiate, restartIce, addTransceiver, addStream,
      addTrack, replaceTrack, removeTrack, removeStream, hd]

/-- Witness for `destroying_ops_silent` on a concrete mid-destruction peer. -/
theorem destroying_ops_silent_witness :
    negotiate {initState true .disabled false false with destroying := true} =
      ({initState true .disabled false false with destroying := true}, .ret, []) :=
  (destroying_ops_silent {initState true .disabled false false with destroying := true}
    rfl ⟨true, none, none, none⟩ 0 0 0 0 0 0 []).2.2.1

/-- The state reached once destruction has fully completed: `destroy` was
called and the deferred teardown ran. -/
def postDestroyPeer : PeerState :=
  steps (initState true .disabled false false) [Ev.destroyStart, Ev.destroyFinishEv]

/-- Counterexample to claim C9 as stated: after destruction has completed
(`destroyed = true`), the public operations still return silently rather than
throwing the destroyed-precondition error, because the destroying flag is
never cleared and its guard runs first. -/
theorem postDestroy_ops_do_not_throw :
    postDestroyPeer.destroyed = true ∧
    postDestroyPeer.destroying = true ∧
    signal postDestroyPeer ⟨true, none, none, none⟩ =
      (postDestroyPeer, Outcome.ret, []) ∧
    send postDestroyPeer 0 = (postDestroyPeer, Outcome.ret, []) ∧
    negotiate postDestroyPeer = (postDestroyPeer, Outcome.ret, []) ∧
    restartIce postDestroyPeer = (postDestroyPeer, false, []) := by
  refine ⟨rfl, rfl, by decide, by decide, by decide, by decide⟩

/-- Claim C10: the public `connected` getter is true exactly when the internal
`_connected` flag is set and the channel's readyState is `open`; in
particular it reports false once the channel has begun closing. -/
theorem connectedGetter_spec (s : PeerState) :
    (connectedGetter s = true ↔ (s.connected = true ∧ s.channelState = .opened)) ∧
    (s.channelState = .closing → connectedGetter s = false) := by
  constructor
  · simp [connectedGetter]
  · intro h
    simp [connectedGetter, h]

/-- Witness for `connectedGetter_spec`: a connected peer whose channel has
begun closing reports not connected. -/
theorem connectedGetter_spec_witness :
    connectedGetter {initState true .disabled false false with
      connected := true, channelState := .closing} = false :=
  (connectedGetter_spec {initState true .disabled false false with
    connected := true, channelState := .closing}).2 rfl

end SpecPeer
